import Mathlib

/-!
StreamForge task-execution subsystem: verification development

A shallow embedding of the parts of the StreamForge code base that the
specification's testable claims are about, together with theorems settling
those claims.  Every definition in the `Code` development below is translated
directly from the Python sources (file and line references are given in the
doc comments); definitions whose name carries the suffix `Claim` restate a
sentence of the specification for comparison with the code.

Datetimes are embedded as natural numbers (seconds); the persistent store is
embedded as explicit record state; Python strings are embedded as `String`
with helper functions reproducing the exact semantics of the library calls
the code uses (`str.split`, `str.strip`, `os.path.splitext`,
`urllib.parse.quote`, ...).
-/

namespace StreamForge

/-! ## Python string primitives

Structural-recursion implementations of the Python string and path operations
used by `parser.py`, `processor.py` and the controllers, so that concrete
instances reduce inside the kernel. -/

/-- Characters stripped by Python `str.strip()` with no argument. -/
def pyIsSpace (c : Char) : Bool :=
  c == ' ' || c == '\t' || c == '\n' || c == '\x0b' || c == '\x0c' || c == '\r'

/-- Drop the longest prefix of characters satisfying `p`. -/
def dropLeading (p : Char → Bool) : List Char → List Char
  | [] => []
  | c :: cs => if p c then dropLeading p cs else c :: cs

/-- Python `str.lstrip()` restricted to a character predicate. -/
def lstripP (p : Char → Bool) (s : String) : String :=
  String.mk (dropLeading p s.data)

/-- Python `str.rstrip()` restricted to a character predicate. -/
def rstripP (p : Char → Bool) (s : String) : String :=
  String.mk (dropLeading p s.data.reverse).reverse

/-- Python `str.rstrip()` (whitespace). -/
def pyRstrip (s : String) : String :=
  String.mk (dropLeading pyIsSpace s.data.reverse).reverse

/-- Python `str.strip()` (whitespace on both ends). -/
def pyStrip (s : String) : String :=
  String.mk ((dropLeading pyIsSpace ((dropLeading pyIsSpace s.data).reverse)).reverse)

/-- Python `str.count(c)` for a single character. -/
def countChar (ch : Char) (s : String) : Nat :=
  (s.data.filter (fun c => c == ch)).length

/-- Python `str.split(sep)` for a one-character separator. -/
def split1 (sep : Char) : List Char → List (List Char)
  | [] => [[]]
  | c :: rest =>
    let r := split1 sep rest
    if c == sep then [] :: r
    else
      match r with
      | h :: t => (c :: h) :: t
      | [] => [[c]]

/-- Python `str.split(sep)` for a two-character separator (used for the
`parser.py` separator string of a pipe followed by a dash). -/
def split2 (a b : Char) : List Char → List (List Char)
  | [] => [[]]
  | [c] => [[c]]
  | c :: d :: rest =>
    if c == a && d == b then [] :: split2 a b rest
    else
      match split2 a b (d :: rest) with
      | h :: t => (c :: h) :: t
      | [] => [[c]]

/-- Index of the last occurrence of `ch` (Python `str.rfind`, `none` = -1). -/
def rfindIdx (ch : Char) (cs : List Char) : Option Nat :=
  match cs with
  | [] => none
  | c :: rest =>
    match rfindIdx ch rest with
    | some i => some (i + 1)
    | none => if c == ch then some 0 else none

/-- Index of the first occurrence of `ch` (Python `str.find`, `none` = -1). -/
def ffindIdx (ch : Char) : List Char → Option Nat
  | [] => none
  | c :: rest =>
    if c == ch then some 0
    else (ffindIdx ch rest).map (· + 1)

/-- Embeds `os.path.basename` for POSIX paths: the part after the last slash. -/
def osBasename (s : String) : String :=
  String.mk ((split1 '/' s.data).getLastD [])

/-- Embeds `os.path.dirname` for POSIX paths (CPython `posixpath.dirname`). -/
def osDirname (s : String) : String :=
  match rfindIdx '/' s.data with
  | none => ""
  | some i =>
    let head := s.data.take (i + 1)
    if head ≠ [] && ¬ head.all (fun c => c == '/') then
      String.mk (dropLeading (fun c => c == '/') head.reverse).reverse
    else
      String.mk head

/-- Embeds `os.path.splitext` for POSIX paths (CPython `posixpath._splitext`): split
off the extension at the last dot, unless the basename consists only of
leading dots up to that position. -/
def osSplitext (s : String) : String × String :=
  let p := s.data
  match rfindIdx '.' p with
  | none => (s, "")
  | some d =>
    let fstart := match rfindIdx '/' p with
      | some i => i + 1
      | none => 0
    if fstart ≤ d && ¬ ((p.drop fstart).take (d - fstart)).all (fun c => c == '.') then
      (String.mk (p.take d), String.mk (p.drop d))
    else (s, "")

/-- Python `str.lower()` (ASCII case folding suffices for extensions). -/
def pyLower (s : String) : String :=
  String.mk (s.data.map Char.toLower)

/-- UTF-8 encoding of one character, as byte values. -/
def utf8Bytes (c : Char) : List Nat :=
  let n := c.toNat
  if n < 128 then [n]
  else if n < 2048 then [192 + n / 64, 128 + n % 64]
  else if n < 65536 then [224 + n / 4096, 128 + (n / 64) % 64, 128 + n % 64]
  else [240 + n / 262144, 128 + (n / 4096) % 64, 128 + (n / 64) % 64, 128 + n % 64]

/-- Bytes that `urllib.parse.quote` leaves unescaped with the default
`safe` argument: ASCII letters, digits, underscore, dot, hyphen, tilde, and
the slash from `safe`. -/
def quoteSafeByte (b : Nat) : Bool :=
  (65 ≤ b && b ≤ 90) || (97 ≤ b && b ≤ 122) || (48 ≤ b && b ≤ 57) ||
  b == 95 || b == 46 || b == 45 || b == 126 || b == 47

/-- Upper-case hexadecimal digit. -/
def hexDigit (n : Nat) : Char :=
  if n < 10 then Char.ofNat (48 + n) else Char.ofNat (55 + n)

/-- Embeds `urllib.parse.quote(s)` with the default `safe` argument: UTF-8 encode,
then percent-escape every byte outside the safe set. -/
def pyQuote (s : String) : String :=
  String.mk ((s.data.flatMap utf8Bytes).flatMap (fun b =>
    if quoteSafeByte b then [Char.ofNat b] else ['%', hexDigit (b / 16), hexDigit (b % 16)]))

/-- Embeds `pathlib` join of a directory and a relative path (`dir / rel`). -/
def pathlibJoin (a b : String) : String :=
  if a.data.getLastD ' ' == '/' then a ++ b else a ++ "/" ++ b

/-- Embeds `Path(p).relative_to("/")` for an absolute POSIX path: drop the leading
slashes. -/
def relativeToRoot (p : String) : String :=
  String.mk (dropLeading (fun c => c == '/') p.data)

/-- Python truthiness of an optional string (`None` and the empty string are
falsy). -/
def truthyStr : Option String → Bool
  | none => false
  | some s => ¬ s.isEmpty

/-- Python truthiness of an optional integer (`None` and `0` are falsy). -/
def truthyNat : Option Nat → Bool
  | none => false
  | some n => n ≠ 0

/-! ## Enumerations (src/app/models/strm/models.py, download.py) -/

/-- Embeds `TaskStatus` in src/app/models/strm/models.py. -/
inductive TaskStatus where
  | pending | running | completed | failed | canceled
deriving DecidableEq, Repr

/-- Embeds `DownloadTaskStatus` in src/app/models/strm/download.py. -/
inductive DlStatus where
  | pending | downloading | completed | failed | canceled | retry
deriving DecidableEq, Repr

/-- Embeds `ProcessType` in src/app/models/strm/models.py. -/
inductive ProcessType where
  | strm_generation | resource_download | pending_wait
deriving DecidableEq, Repr

/-- Embeds `FileType` in src/app/models/strm/models.py. -/
inductive FileType where
  | video | audio | image | subtitle | metadata | other
deriving DecidableEq, Repr

/-! ## Persistent records (src/app/models/strm/task.py, download.py, file.py) -/

/-- A `DownloadTask` row (src/app/models/strm/download.py, lines 16-51): one
Sub-Task of a parent Task.  Datetimes are seconds, sizes are in bytes. -/
structure SubTask where
  id : Nat := 0
  task_id : Nat := 0
  source_path : String := ""
  target_path : Option String := none
  file_type : FileType := .other
  process_type : ProcessType := .pending_wait
  status : DlStatus := .pending
  priority : Nat := 0
  attempt_count : Nat := 0
  max_attempts : Nat := 3
  file_size : Option Nat := none
  download_started : Option Nat := none
  download_completed : Option Nat := none
  worker_id : Option String := none
  error_message : Option String := none
  retry_after : Option Nat := none
deriving DecidableEq, Repr

/-- A `StrmTask` row (src/app/models/strm/task.py, lines 9-46): the parent
Task.  These are exactly the fields the model declares; note that no
`last_heartbeat` field is among them. -/
structure StrmTaskRow where
  id : Nat := 0
  name : String := ""
  status : TaskStatus := .pending
  server_id : Nat := 0
  download_server_id : Option Nat := none
  source_file : String := ""
  output_dir : String := ""
  total_files : Nat := 0
  processed_files : Nat := 0
  success_files : Nat := 0
  failed_files : Nat := 0
  start_time : Option Nat := none
  end_time : Option Nat := none
  created_by_id : Nat := 0
  log_file : Option String := none
  log_content : Option String := none
  download_duration : Option Nat := none
  threads : Nat := 1
deriving DecidableEq, Repr

/-- A `StrmFile` row (src/app/models/strm/file.py). -/
structure StrmFileRec where
  id : Nat := 0
  task_id : Nat := 0
  source_path : String := ""
  target_path : String := ""
deriving DecidableEq, Repr

/-- Embeds `StrmTask.log` (src/app/models/strm/task.py, lines 122-141): append a
`[timestamp] [level] message` line to the append-only `log_content` column;
a falsy (`None` or empty) current content is replaced by the single line. -/
def taskLogAppend (log_content : Option String) (now : Nat) (level msg : String) :
    Option String :=
  let line := "[" ++ toString now ++ "] [" ++ level ++ "] " ++ msg
  match log_content with
  | some s => if ¬ s.isEmpty then some (s ++ "\n" ++ line) else some line
  | none => some line

/-! ## STRM writer (src/app/utils/strm/processor.py, class at lines 807-1155)

The STRM-generation handler.  `replace_base_path` and the URL computation of
`createstrm` are pure; the filesystem write is modelled by returning the
target path and the file content. -/

/-- Embeds `strm_downaload.replace_base_path` (processor.py lines 1020-1047): strip
slashes from both ends of the replacement, split the original path on `/`,
overwrite the element at index 1, and re-join.  A path with fewer than two
segments makes the index assignment raise; the handler returns the path
unchanged in that case. -/
def replace_base_path (original_path new_base_path : String) : String :=
  let nb := String.mk (dropLeading (fun c => c == '/')
    (dropLeading (fun c => c == '/') new_base_path.data.reverse).reverse)
  let pathlist := split1 '/' original_path.data
  if pathlist.length ≥ 2 then
    String.intercalate "/" ((pathlist.set 1 nb.data).map String.mk)
  else original_path

/-- The URL written by `strm_downaload.createstrm` (processor.py lines
960-1000): the server base plus the URL-quoted virtual path, with the path
first run through `replace_base_path` when path rewrite is enabled. -/
def createstrmUrl (enable_path_replacement : Bool) (replacement_path : String)
    (hosts filepath : String) : String :=
  if enable_path_replacement then hosts ++ pyQuote (replace_base_path filepath replacement_path)
  else hosts ++ pyQuote filepath

/-- The local target path of `strm_downaload.createstrm` (processor.py lines
971-979): the source path with its extension replaced by `.strm`, joined
under the output directory. -/
def createstrmTarget (save_path filepath : String) : String :=
  let root := (osSplitext filepath).1
  pathlibJoin save_path (relativeToRoot (root ++ ".strm"))

/-- Success path of `strm_downaload.process_single_task` (processor.py lines
920-924): after `createstrm` returns the target path the Sub-Task is marked
completed and its target recorded; no other field (in particular not
`source_path`) is touched. -/
def strmSingleTaskSuccess (output_dir : String) (st : SubTask) : SubTask :=
  { st with status := .completed,
            target_path := some (createstrmTarget output_dir st.source_path) }

/-! ## Retry policy (src/app/utils/strm/processor.py)

The two handler classes' `process_single_task` methods carry the identical
`except` block: `ResourceDownloader.process_single_task` (lines 451-484) and
`strm_downaload.process_single_task` (lines 925-958).  The block is embedded
once. -/

/-- The shared exception handler of both `process_single_task` methods.
Returns the updated Sub-Task together with the level of the Task-log line it
writes. -/
def processSingleTaskException (retry_interval_seconds now : Nat) (error_msg : String)
    (st : SubTask) : SubTask × String :=
  let st1 := { st with error_message := some error_msg,
                       attempt_count := st.attempt_count + 1 }
  if st1.attempt_count < st1.max_attempts then
    ({ st1 with status := .retry,
                retry_after := some (now + retry_interval_seconds),
                worker_id := none,
                download_started := none,
                download_completed := none }, "WARNING")
  else
    ({ st1 with status := .failed }, "ERROR")

/-! ## Terminal reconciliation (src/app/utils/strm/processor.py,
`process_directory_tree` lines 689-760)

After both handler phases return, the parent Task's counters and terminal
status are recomputed from its Sub-Task rows. -/

/-- The status-and-counter update at the end of `process_directory_tree`.
`subs` are all `DownloadTask` rows of the Task; `end_time` and `elapsed`
embed `datetime.now()` and the measured duration.  The informational
Task-log lines written alongside (progress bar, summary block) only append
to `log_content` and are not modelled here. -/
def reconcileDirectoryTree (task : StrmTaskRow) (subs : List SubTask)
    (end_time elapsed : Nat) : StrmTaskRow :=
  if task.status = .canceled then
    { task with end_time := some end_time, download_duration := some elapsed }
  else
    let strm_tasks := subs.filter (fun dt => dt.process_type = .strm_generation)
    let resource_tasks := subs.filter (fun dt => dt.process_type = .resource_download)
    let strm_success := (strm_tasks.filter (fun dt => dt.status = .completed)).length
    let strm_failed := (strm_tasks.filter (fun dt => dt.status = .failed)).length
    let resource_success := (resource_tasks.filter (fun dt => dt.status = .completed)).length
    let resource_failed := (resource_tasks.filter (fun dt => dt.status = .failed)).length
    let t := { task with
      end_time := some end_time,
      processed_files := strm_success + strm_failed + resource_success + resource_failed,
      success_files := strm_success + resource_success,
      failed_files := strm_failed + resource_failed,
      download_duration := some elapsed }
    if strm_failed > 0 ∨ resource_failed > 0 then
      { t with status := .failed }
    else
      { t with status := .completed }

/-! ## Tree parser (src/app/utils/strm/parser.py, class TreeParser) -/

/-- The raw settings values `TreeParser._load_settings_from_db` reads: the
five nullable file-type columns (comma-separated extension strings) and the
settings version. -/
structure RawSettings where
  settings_version : Nat := 1
  video_file_types : Option String := none
  audio_file_types : Option String := none
  image_file_types : Option String := none
  subtitle_file_types : Option String := none
  metadata_file_types : Option String := none
deriving DecidableEq, Repr

/-- The extension lists a constructed `TreeParser` holds. -/
structure TreeParserCfg where
  video_extensions : List String
  audio_extensions : List String
  image_extensions : List String
  subtitle_extensions : List String
  metadata_extensions : List String
  settings_version : Nat
deriving DecidableEq, Repr

/-- Embeds `_load_settings_from_db` parsing of one raw column (parser.py lines
89-117): `None` is coerced to the empty string, the string is split on
commas, entries are stripped and empty entries dropped. -/
def parseExtList (raw : Option String) : List String :=
  ((split1 ',' (raw.getD "").data).map (fun cs => pyStrip (String.mk cs))).filter
    (fun e => ¬ e.isEmpty)

/-- Built-in default video extensions (parser.py line 41). -/
def defaultVideoExts : List String :=
  ["mkv", "mp4", "avi", "rmvb", "wmv", "mov", "m2ts", "ts", "iso", "flv"]

/-- Built-in default audio extensions (parser.py line 45). -/
def defaultAudioExts : List String := ["mp3", "flac", "wav", "aac", "ogg", "m4a", "wma"]

/-- Built-in default image extensions (parser.py line 49). -/
def defaultImageExts : List String := ["jpg", "jpeg", "png", "gif", "bmp", "tiff", "webp"]

/-- Built-in default subtitle extensions (parser.py line 53). -/
def defaultSubtitleExts : List String := ["srt", "ass", "ssa", "vtt", "sub", "idx"]

/-- Built-in default metadata extensions (parser.py line 57). -/
def defaultMetadataExts : List String := ["nfo", "xml", "json", "txt"]

/-- Embeds `TreeParser.__init__` (parser.py lines 18-57): start from empty lists,
load the configured lists when settings are given, then substitute the
built-in default list for every category whose list is (still) empty. -/
def treeParserInit (settings : Option RawSettings) : TreeParserCfg :=
  let loaded : TreeParserCfg :=
    match settings with
    | none => ⟨[], [], [], [], [], 1⟩
    | some s => ⟨parseExtList s.video_file_types, parseExtList s.audio_file_types,
                 parseExtList s.image_file_types, parseExtList s.subtitle_file_types,
                 parseExtList s.metadata_file_types, s.settings_version⟩
  { loaded with
    video_extensions := if loaded.video_extensions.isEmpty then defaultVideoExts
      else loaded.video_extensions,
    audio_extensions := if loaded.audio_extensions.isEmpty then defaultAudioExts
      else loaded.audio_extensions,
    image_extensions := if loaded.image_extensions.isEmpty then defaultImageExts
      else loaded.image_extensions,
    subtitle_extensions := if loaded.subtitle_extensions.isEmpty then defaultSubtitleExts
      else loaded.subtitle_extensions,
    metadata_extensions := if loaded.metadata_extensions.isEmpty then defaultMetadataExts
      else loaded.metadata_extensions }

/-- Embeds `TreeParser._get_file_type` (parser.py lines 220-244): lower-case the
dot-extension of the file name, strip leading dots, and match it against the
five configured lists in order; unmatched extensions are typed `other`. -/
def getFileTypeOf (cfg : TreeParserCfg) (filename : String) : FileType × String :=
  let ext := String.mk (dropLeading (fun c => c == '.')
    (pyLower (osSplitext filename).2).data)
  if cfg.video_extensions.contains ext then (.video, ext)
  else if cfg.audio_extensions.contains ext then (.audio, ext)
  else if cfg.image_extensions.contains ext then (.image, ext)
  else if cfg.subtitle_extensions.contains ext then (.subtitle, ext)
  else if cfg.metadata_extensions.contains ext then (.metadata, ext)
  else (.other, ext)

/-- One emitted entry of `TreeParser.parse_file`. -/
structure ParsedEntry where
  path : String
  file_type : FileType
  extension : String
  file_name : String
  directory : String
deriving DecidableEq, Repr

/-- Embeds `TreeParser._format_file_path` (parser.py lines 203-218): drop everything
up to (excluding) the second slash; paths with fewer than two slashes are
returned unchanged. -/
def formatFilePath (file_path : String) : String :=
  match ffindIdx '/' file_path.data with
  | none => file_path
  | some first =>
    match ffindIdx '/' (file_path.data.drop (first + 1)) with
    | none => file_path
    | some off => String.mk (file_path.data.drop (first + 1 + off))

/-- One iteration of the `parse_file` line loop (parser.py lines 152-197):
strip the BOM and trailing whitespace, take the pipe count as the depth,
take the text after the last pipe-dash separator as the item name, maintain
the path stack, and emit an entry when the basename contains a dot. -/
def parseFileStep (cfg : TreeParserCfg) (state : List String × List ParsedEntry)
    (rawLine : String) : List String × List ParsedEntry :=
  let stack := state.1
  let result := state.2
  let line := pyRstrip (lstripP (fun c => c.toNat == 0xFEFF) rawLine)
  let line_depth := countChar '|' line
  let item_name := pyStrip (String.mk ((split2 '|' '-' line.data).getLastD []))
  if item_name.isEmpty then state
  else
    let stack1 := if stack.length > line_depth then stack.take line_depth else stack
    let stack2 := if stack1.length = line_depth ∧ stack1 ≠ [] then stack1.dropLast else stack1
    let stack3 := stack2 ++ [item_name]
    let full_path := "/" ++ String.intercalate "/" stack3
    let filename := osBasename full_path
    if ¬ filename.data.contains '.' then (stack3, result)
    else
      let formatted_path := formatFilePath full_path
      let tyext := getFileTypeOf cfg filename
      (stack3, result ++ [{ path := formatted_path, file_type := tyext.1,
                            extension := tyext.2, file_name := filename,
                            directory := osDirname formatted_path }])

/-- Embeds `TreeParser.parse_file` (parser.py lines 130-201) on an already decoded
list of lines: fold the line loop from an empty stack and collect the
entries. -/
def parseFile (cfg : TreeParserCfg) (lines : List String) : List ParsedEntry :=
  (lines.foldl (parseFileStep cfg) ([], [])).2

/-! ## Settings update (src/app/controllers/strm/system_controller.py,
`SystemSettingsController.create_or_update_settings` lines 267-359)

Only the update branch for an existing settings row is embedded (the create
branch always writes version 1).  The update payload carries, for each of
the five file-type columns, either no entry or a new (nullable) value. -/

/-- The five file-type columns of a `SystemSettings` row together with the
version counter. -/
structure SettingsRow where
  video_file_types : Option String := none
  audio_file_types : Option String := none
  image_file_types : Option String := none
  subtitle_file_types : Option String := none
  metadata_file_types : Option String := none
  settings_version : Nat := 1
deriving DecidableEq, Repr

/-- The file-type part of an accepted update payload: `none` means the field
is absent from `data`, `some v` that `data[field] = v`. -/
structure SettingsUpdate where
  video_file_types : Option (Option String) := none
  audio_file_types : Option (Option String) := none
  image_file_types : Option (Option String) := none
  subtitle_file_types : Option (Option String) := none
  metadata_file_types : Option (Option String) := none
deriving DecidableEq, Repr

/-- Whether one field of the payload differs from the stored value
(`field in data and getattr(settings, field) != data[field]`). -/
def fieldChanges (stored : Option String) (upd : Option (Option String)) : Bool :=
  match upd with
  | none => false
  | some v => v ≠ stored

/-- The updated value of one field (`setattr` when the field is present). -/
def fieldApply (stored : Option String) (upd : Option (Option String)) : Option String :=
  upd.getD stored

/-- The `need_version_update` flag of `create_or_update_settings`
(system_controller.py lines 321-328): some file-type field is present in the
payload with a value different from the stored one. -/
def settingsNeedBump (row : SettingsRow) (upd : SettingsUpdate) : Bool :=
  fieldChanges row.video_file_types upd.video_file_types ||
  fieldChanges row.audio_file_types upd.audio_file_types ||
  fieldChanges row.image_file_types upd.image_file_types ||
  fieldChanges row.subtitle_file_types upd.subtitle_file_types ||
  fieldChanges row.metadata_file_types upd.metadata_file_types

/-- Embeds `create_or_update_settings`, update branch (system_controller.py lines
312-342): compute `need_version_update` from the five file-type fields,
write all present fields, and increment `settings_version` exactly when the
flag was set. -/
def applySettingsUpdate (row : SettingsRow) (upd : SettingsUpdate) : SettingsRow :=
  let need_version_update := settingsNeedBump row upd
  { video_file_types := fieldApply row.video_file_types upd.video_file_types,
    audio_file_types := fieldApply row.audio_file_types upd.audio_file_types,
    image_file_types := fieldApply row.image_file_types upd.image_file_types,
    subtitle_file_types := fieldApply row.subtitle_file_types upd.subtitle_file_types,
    metadata_file_types := fieldApply row.metadata_file_types upd.metadata_file_types,
    settings_version :=
      if need_version_update then row.settings_version + 1 else row.settings_version }

/-- The five file-type columns of a row, as a tuple (for stating what
"the lists changed" means). -/
def fiveFileTypeLists (row : SettingsRow) :
    Option String × Option String × Option String × Option String × Option String :=
  (row.video_file_types, row.audio_file_types, row.image_file_types,
   row.subtitle_file_types, row.metadata_file_types)

/-! ## Cancel action (src/app/controllers/strm/task_controller.py,
`cancel_task` lines 952-1007) -/

/-- A Task row together with its Sub-Task rows. -/
structure TaskAgg where
  task : StrmTaskRow
  subs : List SubTask
deriving DecidableEq, Repr

/-- Embeds `cancel_task`: reject a caller who is not the owner (403) and a parent
status outside pending/running (400) before any write; otherwise set the
parent canceled with `end_time = now` and a log line, and move every
Sub-Task in pending/downloading/retry to canceled.  The `Except` value
carries the HTTP error code or the number of Sub-Tasks canceled. -/
def cancelTask (user_id now : Nat) (s : TaskAgg) : TaskAgg × Except Nat Nat :=
  if s.task.created_by_id ≠ user_id then (s, .error 403)
  else if s.task.status ∉ [TaskStatus.pending, TaskStatus.running] then (s, .error 400)
  else
    let task1 := { s.task with
      status := .canceled,
      end_time := some now,
      log_content := taskLogAppend s.task.log_content now "INFO" "任务已被用户取消" }
    let cancelable := fun (dl : SubTask) =>
      dl.status ∈ [DlStatus.pending, DlStatus.downloading, DlStatus.retry]
    let subs1 := s.subs.map (fun dl =>
      if cancelable dl then
        { dl with status := .canceled, error_message := some "任务被用户取消" }
      else dl)
    (⟨task1, subs1⟩, .ok (s.subs.countP (fun dl => cancelable dl)))

/-! ## Continue action (src/app/controllers/strm/task_controller.py,
`continue_task` lines 1010-1111)

The per-Sub-Task state mapping of the continue action.  The filesystem is an
oracle mapping a path to `some size` when the file exists (with the byte
size `os.path.getsize` reports) and `none` when it does not. -/

/-- The continue gate (task_controller.py line 1031): only a canceled parent
may be continued. -/
def continueTaskAllowed (status : TaskStatus) : Bool :=
  status == .canceled

/-- The per-Sub-Task mapping of `continue_task` (task_controller.py lines
1059-1111).  A completed Sub-Task keeps its state when its target path is
truthy and exists, and is otherwise reset to pending with an explanatory
error message; a canceled Sub-Task with an existing target is promoted to
completed when the integrity check passes (resource download: a truthy
recorded size equal to the on-disk size; strm generation: mere existence),
and reset to pending otherwise; failed and retry Sub-Tasks are reset to
pending with the attempt counter zeroed. -/
def continueMapSub (fs : String → Option Nat) (dl : SubTask) : SubTask :=
  if dl.status = .completed then
    if truthyStr dl.target_path ∧ (fs (dl.target_path.getD "")).isSome then dl
    else { dl with status := .pending, error_message := some "文件丢失，需要重新处理" }
  else if dl.status = .canceled then
    if truthyStr dl.target_path then
      match fs (dl.target_path.getD "") with
      | some actual_size =>
        let file_is_complete :=
          if dl.process_type = .resource_download ∧ truthyNat dl.file_size then
            dl.file_size == some actual_size
          else if dl.process_type = .strm_generation then true
          else false
        if file_is_complete then { dl with status := .completed, error_message := none }
        else { dl with status := .pending, error_message := none }
      | none => { dl with status := .pending, error_message := none }
    else { dl with status := .pending, error_message := none }
  else if dl.status = .failed ∨ dl.status = .retry then
    { dl with status := .pending, error_message := none, attempt_count := 0 }
  else dl

/-! ## Delete action (src/app/controllers/strm/task_controller.py,
`delete_task` lines 1167-1215) -/

/-- The record store the delete action touches. -/
structure Db where
  tasks : List StrmTaskRow
  downloads : List SubTask
  strm_files : List StrmFileRec
deriving DecidableEq, Repr

/-- Embeds `delete_task`: missing task (404) and foreign owner (403) abort before
any write; otherwise the output directory is removed when it exists — an
exception from `shutil.rmtree` is caught and only logged — and the
`DownloadTask` rows, `StrmFile` rows and the Task row are deleted
unconditionally.  `dir_exists` and `rmtree_raises` embed the filesystem
outcome; the returned flag is `directory_deleted`. -/
def deleteTask (db : Db) (task_id user_id : Nat) (dir_exists rmtree_raises : Bool) :
    Db × Except Nat Bool :=
  match db.tasks.find? (fun t => t.id == task_id) with
  | none => (db, .error 404)
  | some t =>
    if t.created_by_id ≠ user_id then (db, .error 403)
    else
      let directory_deleted := dir_exists && !rmtree_raises
      let db1 : Db :=
        { tasks := db.tasks.filter (fun t2 => ¬ t2.id = task_id),
          downloads := db.downloads.filter (fun dl => ¬ dl.task_id = task_id),
          strm_files := db.strm_files.filter (fun f => ¬ f.task_id = task_id) }
      (db1, .ok directory_deleted)

/-! ## Heartbeat (src/app/core/task_recovery.py lines 296-306 and
src/app/utils/strm/processor.py lines 853-881, 1158-1164)

`TaskRecoveryService.add_heartbeat_to_task` refetches the Task row and sets
`task.last_heartbeat = datetime.now()` only behind a
`hasattr(task, 'last_heartbeat')` guard.  A Tortoise model instance exposes
exactly the fields its model declares, so `hasattr` on a freshly fetched
`StrmTask` is decided by the declared field list of
src/app/models/strm/task.py. -/

/-- The field names `StrmTask` declares (src/app/models/strm/task.py lines
12-31). -/
def strmTaskFieldNames : List String :=
  ["id", "name", "status", "server", "download_server", "source_file", "output_dir",
   "total_files", "processed_files", "success_files", "failed_files", "start_time",
   "end_time", "created_by", "log_file", "log_content", "download_duration", "threads"]

/-- A fetched `StrmTask` instance: the declared row plus any dynamically set
datetime attributes (none on a fresh fetch). -/
structure PyTaskObj where
  row : StrmTaskRow
  dyn : List (String × Nat) := []
deriving DecidableEq, Repr

/-- Python `hasattr` on a fetched Task instance: a declared model field or a
dynamically set attribute. -/
def pyHasattrTask (t : PyTaskObj) (name : String) : Bool :=
  strmTaskFieldNames.contains name || (t.dyn.lookup name).isSome

/-- Python `getattr(t, name, None)` for the dynamic datetime attributes. -/
def pyGetattrDyn (t : PyTaskObj) (name : String) : Option Nat :=
  t.dyn.lookup name

/-- Embeds `TaskRecoveryService.add_heartbeat_to_task` (task_recovery.py lines
296-306): refetch the task; when it exists and `hasattr(task,
'last_heartbeat')` holds, write the current time into that attribute;
otherwise do nothing.  (`update_task_heartbeat` in processor.py lines
1158-1164 is a try/except wrapper around this call.) -/
def add_heartbeat_to_task (fetched : Option PyTaskObj) (now : Nat) : Option PyTaskObj :=
  match fetched with
  | none => none
  | some t =>
    if pyHasattrTask t "last_heartbeat" then
      some { t with dyn := ("last_heartbeat", now) :: t.dyn.filter (fun kv => kv.1 ≠ "last_heartbeat") }
    else some t

/-- The end-of-batch bookkeeping both handler loops share
(`strm_downaload.genstrm` lines 869-881, `ResourceDownloader.start_download`
lines 395-407): when a task id was passed, re-read the parent; if it is
canceled stop (second component `true`), otherwise run the heartbeat update.
The progress log line written afterwards only appends to `log_content` and
is not modelled. -/
def batchPostUpdate (task_id : Option Nat) (t : PyTaskObj) (now : Nat) :
    PyTaskObj × Bool :=
  match task_id with
  | none => (t, false)
  | some _ =>
    if t.row.status = .canceled then (t, true)
    else
      match add_heartbeat_to_task (some t) now with
      | some t2 => (t2, false)
      | none => (t, false)

/-! ## Concrete fixtures used by the theorems -/

/-- The parser configuration of the minimal-STRM scenario: the video list is
exactly `mkv`; the unspecified categories fall back to the built-in
defaults. -/
def cfgMinimal : TreeParserCfg := treeParserInit (some { video_file_types := some "mkv" })

/-- The minimal-STRM blob exactly as the claim words it. -/
def linesMinimal : List String := ["|root", "||movies", "|||a.mkv"]

/-- The same blob with the pipe-dash separator the 115 export format actually
uses in front of each label. -/
def linesMinimalSep : List String := ["|-root", "||-movies", "|||-a.mkv"]

/-- A running parent Task. -/
def taskRunning : StrmTaskRow := { id := 1, status := .running, created_by_id := 1 }

/-- A strm-generation Sub-Task parked in retry (one failed attempt, budget
not exhausted). -/
def subRetry : SubTask :=
  { id := 11, task_id := 1, source_path := "/movies/a.mkv", file_type := .video,
    process_type := .strm_generation, status := .retry, attempt_count := 1,
    max_attempts := 3 }

/-- A downloading Sub-Task on its last allowed attempt, with a worker and a
start timestamp recorded. -/
def subLastAttempt : SubTask :=
  { id := 12, task_id := 1, source_path := "/show/poster.jpg", file_type := .image,
    process_type := .resource_download, status := .downloading, attempt_count := 2,
    max_attempts := 3, worker_id := some "worker-1", download_started := some 50 }

/-- A freshly fetched instance of the running Task (no dynamic attributes). -/
def taskObjRunning : PyTaskObj := { row := taskRunning }

/-- The Sub-Task of the path-rewrite scenario. -/
def subMovie : SubTask :=
  { id := 13, task_id := 1, source_path := "/movies/a.mkv", file_type := .video,
    process_type := .strm_generation, status := .downloading }

/-- A filesystem on which `/o/movies/a.strm` exists and is empty. -/
def fsEmptyStrm : String → Option Nat :=
  fun p => if p = "/o/movies/a.strm" then some 0 else none

/-- A canceled strm-generation Sub-Task whose target is the (existing, empty)
strm file. -/
def subCanceledStrm : SubTask :=
  { id := 14, task_id := 1, source_path := "/movies/a.mkv", file_type := .video,
    process_type := .strm_generation, status := .canceled,
    target_path := some "/o/movies/a.strm" }

/-- Raw settings in which every file-type list is present but empty. -/
def rawAllEmpty : RawSettings :=
  { video_file_types := some "", audio_file_types := some "",
    image_file_types := some "", subtitle_file_types := some "",
    metadata_file_types := some "" }

/-- A pending Task aggregate with one retry Sub-Task, owned by user 5. -/
def aggPending : TaskAgg :=
  { task := { id := 2, status := .pending, created_by_id := 5 }, subs := [subRetry] }

/-- A filesystem on which `/o/x.strm` exists with 7 bytes. -/
def fsOkStrm : String → Option Nat :=
  fun p => if p = "/o/x.strm" then some 7 else none

/-- A canceled strm-generation Sub-Task whose target `/o/x.strm` exists. -/
def subCanceledStrmOk : SubTask :=
  { id := 15, task_id := 1, source_path := "/x.mkv", file_type := .video,
    process_type := .strm_generation, status := .canceled,
    target_path := some "/o/x.strm" }

/-- A completed Task row with id 9, owned by user 5. -/
def taskNine : StrmTaskRow :=
  { id := 9, status := .completed, created_by_id := 5, output_dir := "/o9" }

/-- A store with one Task (id 9, owner 5) and attached records. -/
def dbOne : Db :=
  { tasks := [taskNine],
    downloads := [{ id := 91, task_id := 9, source_path := "/a.mkv",
                    file_type := .video, process_type := .strm_generation,
                    status := .completed }],
    strm_files := [{ id := 92, task_id := 9, source_path := "/a.mkv",
                     target_path := "/o9/a.strm" }] }

/-! ## Helper lemmas -/

/-- The condition of the terminal status decision in
`process_directory_tree`: some strm-generation Sub-Task failed or some
resource-download Sub-Task failed. -/
def failedCountPos (subs : List SubTask) : Prop :=
  ((subs.filter (fun dt => dt.process_type = ProcessType.strm_generation)).filter
      (fun dt => dt.status = DlStatus.failed)).length > 0 ∨
  ((subs.filter (fun dt => dt.process_type = ProcessType.resource_download)).filter
      (fun dt => dt.status = DlStatus.failed)).length > 0

instance : DecidablePred failedCountPos := fun subs => by
  unfold failedCountPos; infer_instance

theorem filter_pair_length_pos {α : Type} (l : List α) (p q : α → Bool) :
    0 < ((l.filter p).filter q).length ↔ ∃ x ∈ l, p x = true ∧ q x = true := by
  rw [List.length_pos_iff_exists_mem]
  constructor
  · rintro ⟨a, ha⟩
    rw [List.mem_filter] at ha
    obtain ⟨ha1, hq⟩ := ha
    rw [List.mem_filter] at ha1
    exact ⟨a, ha1.1, ha1.2, hq⟩
  · rintro ⟨a, hm, hp, hq⟩
    refine ⟨a, ?_⟩
    rw [List.mem_filter]
    exact ⟨by rw [List.mem_filter]; exact ⟨hm, hp⟩, hq⟩

theorem failed_count_pos_iff (subs : List SubTask) :
    failedCountPos subs ↔ ∃ dt ∈ subs, (dt.process_type = ProcessType.strm_generation ∨
      dt.process_type = ProcessType.resource_download) ∧ dt.status = DlStatus.failed := by
  unfold failedCountPos
  rw [gt_iff_lt, gt_iff_lt, filter_pair_length_pos, filter_pair_length_pos]
  simp only [decide_eq_true_eq]
  constructor
  · rintro (⟨dt, hm, hk, hs⟩ | ⟨dt, hm, hk, hs⟩)
    · exact ⟨dt, hm, Or.inl hk, hs⟩
    · exact ⟨dt, hm, Or.inr hk, hs⟩
  · rintro ⟨dt, hm, hk | hk, hs⟩
    · exact Or.inl ⟨dt, hm, hk, hs⟩
    · exact Or.inr ⟨dt, hm, hk, hs⟩

theorem fieldApply_ne_iff (s : Option String) (u : Option (Option String)) :
    (¬ fieldApply s u = s) ↔ fieldChanges s u = true := by
  cases u <;> simp [fieldApply, fieldChanges]

theorem reconcile_status_eq (task : StrmTaskRow) (subs : List SubTask)
    (end_time elapsed : Nat) (h : task.status ≠ TaskStatus.canceled) :
    (reconcileDirectoryTree task subs end_time elapsed).status =
      if failedCountPos subs then TaskStatus.failed else TaskStatus.completed := by
  unfold reconcileDirectoryTree failedCountPos
  rw [if_neg h]
  dsimp only
  split <;> rfl

/-! ## Theorems -/

/-- C1 (counterexample): run the terminal reconciliation of
`process_directory_tree` on a running Task whose single Sub-Task is in
`retry`: no Sub-Task is failed, so the Task is set to `completed` even
though a `pending/downloading/retry` Sub-Task remains — contradicting the
claim that a Task is never set to completed while one of its Sub-Tasks is
still in retry. -/
theorem C1_retry_completed_counterexample :
    (reconcileDirectoryTree taskRunning [subRetry] 100 40).status = TaskStatus.completed ∧
    subRetry.status = DlStatus.retry ∧ taskRunning.status ≠ TaskStatus.canceled := by
  refine ⟨by decide, by decide, by decide⟩

/-- C1 (amended): when both handler phases finish and the parent is not
canceled, the reconciliation sets the Task to `failed` exactly when some
Sub-Task of the two dispatched process kinds is `failed`, and to `completed`
otherwise — pending, downloading and retry Sub-Tasks are not consulted.  A
parent found canceled keeps its status. -/
theorem C1_terminal_status (task : StrmTaskRow) (subs : List SubTask)
    (end_time elapsed : Nat) (h : task.status ≠ TaskStatus.canceled) :
    ((reconcileDirectoryTree task subs end_time elapsed).status = TaskStatus.failed ↔
      ∃ dt ∈ subs, (dt.process_type = ProcessType.strm_generation ∨
        dt.process_type = ProcessType.resource_download) ∧ dt.status = DlStatus.failed) ∧
    ((reconcileDirectoryTree task subs end_time elapsed).status = TaskStatus.completed ↔
      ¬ ∃ dt ∈ subs, (dt.process_type = ProcessType.strm_generation ∨
        dt.process_type = ProcessType.resource_download) ∧ dt.status = DlStatus.failed) := by
  have hst := reconcile_status_eq task subs end_time elapsed h
  have he := failed_count_pos_iff subs
  rw [hst]
  by_cases hc : failedCountPos subs
  · rw [if_pos hc]
    exact ⟨iff_of_true rfl (he.mp hc),
           iff_of_false (by decide) (not_not_intro (he.mp hc))⟩
  · rw [if_neg hc]
    exact ⟨iff_of_false (by decide) (fun hex => hc (he.mpr hex)),
           iff_of_true rfl (fun hex => hc (he.mpr hex))⟩

/-- C1 (witness). -/
theorem C1_terminal_status_witness :
    taskRunning.status ≠ TaskStatus.canceled ∧
    ((reconcileDirectoryTree taskRunning [subRetry] 100 40).status = TaskStatus.completed ↔
      ¬ ∃ dt ∈ [subRetry], (dt.process_type = ProcessType.strm_generation ∨
        dt.process_type = ProcessType.resource_download) ∧ dt.status = DlStatus.failed) :=
  ⟨by decide, (C1_terminal_status taskRunning [subRetry] 100 40 (by decide)).2⟩

/-- C2 (counterexample): a handler exception on the last allowed attempt
drives the Sub-Task to `failed`, but — contrary to the claim — the worker id
and the recorded start timestamp are NOT cleared: they are untouched in the
failure branch. -/
theorem C2_failed_keeps_worker_counterexample :
    (processSingleTaskException 30 100 "boom" subLastAttempt).1.status = DlStatus.failed ∧
    (processSingleTaskException 30 100 "boom" subLastAttempt).1.worker_id = some "worker-1" ∧
    (processSingleTaskException 30 100 "boom" subLastAttempt).1.download_started = some 50 := by
  refine ⟨by decide, by decide, by decide⟩

/-- C2 (amended): on a handler exception the error message is recorded and
`attempt_count` is incremented; when the incremented count is still below
`max_attempts` the Sub-Task becomes `retry` with `retry_after = now +
retry_interval`, the worker id and both download timestamps are cleared, and
a WARNING Task-log line is written; otherwise the Sub-Task becomes `failed`
with an ERROR line, leaving worker id and timestamps as they were. -/
theorem C2_retry_policy (retry_interval_seconds now : Nat) (error_msg : String)
    (st : SubTask) :
    processSingleTaskException retry_interval_seconds now error_msg st =
      (if st.attempt_count + 1 < st.max_attempts then
        ({ st with error_message := some error_msg,
                   attempt_count := st.attempt_count + 1,
                   status := DlStatus.retry,
                   retry_after := some (now + retry_interval_seconds),
                   worker_id := none,
                   download_started := none,
                   download_completed := none }, "WARNING")
      else
        ({ st with error_message := some error_msg,
                   attempt_count := st.attempt_count + 1,
                   status := DlStatus.failed }, "ERROR")) := by
  unfold processSingleTaskException
  dsimp only

/-- C4 (counterexample): with path rewrite enabled and prefix `nas2`, the
URL written for source path `/movies/a.mkv` against base `http://m` is NOT
`http://m/nas2/movies/a.mkv`: `replace_base_path` substitutes the first
path segment instead of prefixing it. -/
theorem C4_rewrite_counterexample :
    createstrmUrl true "nas2" "http://m" "/movies/a.mkv" ≠ "http://m/nas2/movies/a.mkv" := by
  decide

/-- C4 (amended): with path rewrite enabled and prefix `nas2` against media
base `http://m`, the STRM writer writes the file content
`http://m/nas2/a.mkv` (the first non-empty segment `movies` is replaced by
`nas2`), at target `/o/movies/a.strm` under output directory `/o`, and the
Sub-Task's source path is left unchanged as `/movies/a.mkv`. -/
theorem C4_path_rewrite :
    createstrmUrl true "nas2" "http://m" "/movies/a.mkv" = "http://m/nas2/a.mkv" ∧
    (strmSingleTaskSuccess "/o" subMovie).source_path = "/movies/a.mkv" ∧
    (strmSingleTaskSuccess "/o" subMovie).target_path = some "/o/movies/a.strm" ∧
    (strmSingleTaskSuccess "/o" subMovie).status = DlStatus.completed := by
  refine ⟨by decide, by decide, by decide, by decide⟩

/-- C6 (counterexample): parsing the three literal lines of the claim yields
one entry, but its path is `/||movies/|||a.mkv`, not `/movies/a.mkv`: the
item name is what follows the last pipe-dash separator, and these lines
contain no such separator, so the pipes stay part of each name. -/
theorem C6_literal_lines_counterexample :
    (parseFile cfgMinimal linesMinimal).map (fun e => e.path) = ["/||movies/|||a.mkv"] ∧
    ("/||movies/|||a.mkv" : String) ≠ "/movies/a.mkv" := by
  refine ⟨by decide, by decide⟩

/-- C6 (amended): parsing the blob whose three lines are literally `|root`,
`||movies`, `|||a.mkv` under a video set of exactly `mkv` yields exactly one
entry, typed video with extension `mkv`, but with path
`/||movies/|||a.mkv`; the claimed path `/movies/a.mkv` is produced for the
same tree when the lines carry the export format's pipe-dash separator
(`|-root`, `||-movies`, `|||-a.mkv`). -/
theorem C6_minimal_parse :
    parseFile cfgMinimal linesMinimal =
      [{ path := "/||movies/|||a.mkv", file_type := FileType.video, extension := "mkv",
         file_name := "|||a.mkv", directory := "/||movies" }] ∧
    parseFile cfgMinimal linesMinimalSep =
      [{ path := "/movies/a.mkv", file_type := FileType.video, extension := "mkv",
         file_name := "a.mkv", directory := "/movies" }] := by
  refine ⟨by decide, by decide⟩

/-- C3 (counterexample): on a freshly fetched running Task, the end-of-batch
bookkeeping leaves the Task object entirely unchanged and in particular no
`last_heartbeat` attribute carrying the current time exists afterwards: the
claim that the processor sets `last_heartbeat` to the current time fails. -/
theorem C3_no_heartbeat_counterexample :
    batchPostUpdate (some 1) taskObjRunning 100 = (taskObjRunning, false) ∧
    pyGetattrDyn taskObjRunning "last_heartbeat" = none ∧
    taskObjRunning.row.status = TaskStatus.running := by
  refine ⟨by decide, by decide, by decide⟩

/-- C3 (amended): after each batch the processor does invoke the heartbeat
updater, but `StrmTask` declares no `last_heartbeat` field, so the
`hasattr` guard inside `add_heartbeat_to_task` fails on the freshly fetched
instance and the Task is left unchanged: no heartbeat is ever written. -/
theorem C3_heartbeat_never_written (row : StrmTaskRow) (task_id now : Nat)
    (h : row.status = TaskStatus.running) :
    batchPostUpdate (some task_id) ⟨row, []⟩ now = (⟨row, []⟩, false) ∧
    pyGetattrDyn (⟨row, []⟩ : PyTaskObj) "last_heartbeat" = none ∧
    ¬ "last_heartbeat" ∈ strmTaskFieldNames := by
  refine ⟨?_, by simp [pyGetattrDyn], by decide⟩
  have hne : ¬ row.status = TaskStatus.canceled := by rw [h]; decide
  simp [batchPostUpdate, add_heartbeat_to_task, pyHasattrTask, hne, strmTaskFieldNames]

/-- C3 (witness). -/
theorem C3_heartbeat_never_written_witness :
    taskRunning.status = TaskStatus.running ∧
    batchPostUpdate (some 1) ⟨taskRunning, []⟩ 100 = (⟨taskRunning, []⟩, false) :=
  ⟨by decide, (C3_heartbeat_never_written taskRunning 1 100 (by decide)).1⟩

/-- C5 (counterexample): a canceled strm-generation Sub-Task whose target
file exists but is empty is promoted to `completed` by the continue action —
the code only checks existence for strm targets, while the claim requires
the file to be non-empty (and hence this Sub-Task to become pending). -/
theorem C5_empty_strm_counterexample :
    (continueMapSub fsEmptyStrm subCanceledStrm).status = DlStatus.completed ∧
    fsEmptyStrm "/o/movies/a.strm" = some 0 ∧
    subCanceledStrm.status = DlStatus.canceled ∧
    subCanceledStrm.process_type = ProcessType.strm_generation ∧
    subCanceledStrm.target_path = some "/o/movies/a.strm" := by
  refine ⟨by decide, by decide, by decide, by decide, by decide⟩

/-- C5 (amended): the Continue action is permitted exactly on a canceled
Task, and maps each Sub-Task as follows: completed with an existing target
stays completed; completed with a missing target becomes pending with its
error message set to a file-lost notice (not reset); canceled with an
existing target becomes completed when the integrity check passes —
resource: a truthy recorded size equal to the on-disk size; strm: mere
existence — and pending (error cleared) otherwise, also when the target is
missing; failed or retry becomes pending with attempts reset to 0 and the
error cleared; pending and downloading Sub-Tasks are untouched. -/
theorem C5_continue_mapping (fs : String → Option Nat) (dl : SubTask) :
    (∀ s : TaskStatus, continueTaskAllowed s = true ↔ s = TaskStatus.canceled) ∧
    (dl.status = DlStatus.completed →
      truthyStr dl.target_path = true → (fs (dl.target_path.getD "")).isSome = true →
      continueMapSub fs dl = dl) ∧
    (dl.status = DlStatus.completed →
      ¬ (truthyStr dl.target_path = true ∧ (fs (dl.target_path.getD "")).isSome = true) →
      continueMapSub fs dl = { dl with status := DlStatus.pending,
                                       error_message := some "文件丢失，需要重新处理" }) ∧
    (dl.status = DlStatus.canceled → truthyStr dl.target_path = true →
      ∀ sz, fs (dl.target_path.getD "") = some sz →
      (dl.process_type = ProcessType.strm_generation ∨
        (dl.process_type = ProcessType.resource_download ∧
          truthyNat dl.file_size = true ∧ dl.file_size = some sz)) →
      continueMapSub fs dl = { dl with status := DlStatus.completed, error_message := none }) ∧
    (dl.status = DlStatus.canceled → truthyStr dl.target_path = true →
      ∀ sz, fs (dl.target_path.getD "") = some sz →
      ¬ (dl.process_type = ProcessType.strm_generation ∨
        (dl.process_type = ProcessType.resource_download ∧
          truthyNat dl.file_size = true ∧ dl.file_size = some sz)) →
      continueMapSub fs dl = { dl with status := DlStatus.pending, error_message := none }) ∧
    (dl.status = DlStatus.canceled →
      (¬ truthyStr dl.target_path = true ∨ fs (dl.target_path.getD "") = none) →
      continueMapSub fs dl = { dl with status := DlStatus.pending, error_message := none }) ∧
    (dl.status = DlStatus.failed ∨ dl.status = DlStatus.retry →
      continueMapSub fs dl = { dl with status := DlStatus.pending,
                                       error_message := none, attempt_count := 0 }) ∧
    (dl.status = DlStatus.pending ∨ dl.status = DlStatus.downloading →
      continueMapSub fs dl = dl) := by
  refine ⟨?_, ?_, ?_, ?_, ?_, ?_, ?_, ?_⟩
  · intro s; cases s <;> simp [continueTaskAllowed]
  · intro h1 h2 h3
    simp [continueMapSub, h1, h2, h3]
  · intro h1 h2
    unfold continueMapSub
    rw [if_pos h1, if_neg h2]
  · intro h1 h2 sz h3 h4
    have hnc : ¬ dl.status = DlStatus.completed := by rw [h1]; decide
    unfold continueMapSub
    rw [if_neg hnc, if_pos h1, if_pos h2, h3]
    dsimp only
    rcases h4 with h4 | ⟨h4a, h4b, h4c⟩
    · have hnr : ¬ (dl.process_type = ProcessType.resource_download ∧
          truthyNat dl.file_size = true) := by
        rintro ⟨hr, _⟩; rw [h4] at hr; exact absurd hr (by decide)
      rw [if_neg hnr, if_pos h4]
      simp
    · rw [if_pos (show dl.process_type = ProcessType.resource_download ∧
          truthyNat dl.file_size = true from ⟨h4a, h4b⟩)]
      simp [h4c]
  · intro h1 h2 sz h3 h4
    have hnc : ¬ dl.status = DlStatus.completed := by rw [h1]; decide
    unfold continueMapSub
    rw [if_neg hnc, if_pos h1, if_pos h2, h3]
    dsimp only
    by_cases hr : dl.process_type = ProcessType.resource_download ∧
        truthyNat dl.file_size = true
    · rw [if_pos hr]
      have hne : ¬ dl.file_size = some sz := fun heq => h4 (Or.inr ⟨hr.1, hr.2, heq⟩)
      have : (dl.file_size == some sz) = false := by
        simpa [beq_iff_eq] using hne
      simp [this]
    · rw [if_neg hr]
      have hns : ¬ dl.process_type = ProcessType.strm_generation :=
        fun hs => h4 (Or.inl hs)
      rw [if_neg hns]
      simp
  · intro h1 h2
    have hnc : ¬ dl.status = DlStatus.completed := by rw [h1]; decide
    unfold continueMapSub
    rw [if_neg hnc, if_pos h1]
    rcases h2 with h2 | h2
    · rw [if_neg h2]
    · by_cases ht : truthyStr dl.target_path = true
      · rw [if_pos ht, h2]
      · rw [if_neg ht]
  · intro h
    rcases h with h | h <;> simp [continueMapSub, h]
  · intro h
    rcases h with h | h <;> simp [continueMapSub, h]

/-- C5 (witness). -/
theorem C5_continue_mapping_witness :
    continueMapSub fsOkStrm subCanceledStrmOk =
      { subCanceledStrmOk with status := DlStatus.completed, error_message := none } ∧
    (continueMapSub fsOkStrm subCanceledStrmOk).status = DlStatus.completed := by
  obtain ⟨-, -, -, h4, -, -, -, -⟩ := C5_continue_mapping fsOkStrm subCanceledStrmOk
  exact ⟨h4 (by decide) (by decide) 7 (by decide) (Or.inl (by decide)), by decide⟩

/-- C7: an accepted update applied to an existing Settings row increments
`settings_version` by one exactly when the resulting five file-type lists
differ from the stored ones, and leaves the version unchanged exactly when
they are all unchanged. -/
theorem C7_version_bump (row : SettingsRow) (upd : SettingsUpdate) :
    ((applySettingsUpdate row upd).settings_version = row.settings_version + 1 ↔
      fiveFileTypeLists (applySettingsUpdate row upd) ≠ fiveFileTypeLists row) ∧
    ((applySettingsUpdate row upd).settings_version = row.settings_version ↔
      fiveFileTypeLists (applySettingsUpdate row upd) = fiveFileTypeLists row) := by
  have hne : fiveFileTypeLists (applySettingsUpdate row upd) ≠ fiveFileTypeLists row ↔
      settingsNeedBump row upd = true := by
    simp only [fiveFileTypeLists, applySettingsUpdate, settingsNeedBump, ne_eq,
      Prod.mk.injEq, not_and_or, Bool.or_eq_true, fieldApply_ne_iff]
    tauto
  have hv : (applySettingsUpdate row upd).settings_version =
      if settingsNeedBump row upd = true then row.settings_version + 1
      else row.settings_version := rfl
  by_cases hb : settingsNeedBump row upd = true
  · rw [hv, if_pos hb]
    exact ⟨iff_of_true rfl (hne.mpr hb),
           iff_of_false (by omega) (fun heq => (hne.mpr hb) heq)⟩
  · rw [hv, if_neg hb]
    exact ⟨iff_of_false (by omega) (fun hne2 => hb (hne.mp hne2)),
           iff_of_true rfl (not_not.mp (fun hne2 => hb (hne.mp hne2)))⟩

/-- C8: after a successful Cancel on a Task the caller owns, an immediately
repeated Cancel is rejected with code 400 before any write: the Task's
fields (status, end time, log) and every Sub-Task's status are exactly
those left by the first call. -/
theorem C8_cancel_idempotent (s : TaskAgg) (user_id now1 now2 : Nat)
    (hown : s.task.created_by_id = user_id)
    (hstat : s.task.status = TaskStatus.pending ∨ s.task.status = TaskStatus.running) :
    (cancelTask user_id now2 (cancelTask user_id now1 s).1).1 = (cancelTask user_id now1 s).1 ∧
    (cancelTask user_id now2 (cancelTask user_id now1 s).1).2 = Except.error 400 ∧
    (cancelTask user_id now1 s).1.task.status = TaskStatus.canceled := by
  have hmem : s.task.status ∈ [TaskStatus.pending, TaskStatus.running] := by
    rcases hstat with h | h <;> simp [h]
  have h1 : (cancelTask user_id now1 s).1.task.status = TaskStatus.canceled ∧
      (cancelTask user_id now1 s).1.task.created_by_id = user_id := by
    unfold cancelTask
    rw [if_neg (not_not_intro hown), if_neg (not_not_intro hmem)]
    exact ⟨rfl, hown⟩
  set s1 := (cancelTask user_id now1 s).1 with hs1
  have h2 : cancelTask user_id now2 s1 = (s1, Except.error 400) := by
    unfold cancelTask
    rw [if_neg (not_not_intro h1.2)]
    rw [if_pos (show s1.task.status ∉ [TaskStatus.pending, TaskStatus.running] by
      rw [h1.1]; decide)]
  exact ⟨by rw [h2], by rw [h2], h1.1⟩

/-- C8 (witness). -/
theorem C8_cancel_idempotent_witness :
    aggPending.task.created_by_id = 5 ∧
    aggPending.task.status = TaskStatus.pending ∧
    (cancelTask 5 7 (cancelTask 5 3 aggPending).1).1 = (cancelTask 5 3 aggPending).1 :=
  ⟨by decide, by decide,
   (C8_cancel_idempotent aggPending 5 3 7 (by decide) (Or.inl (by decide))).1⟩

/-- C9: whenever one of the five configured extension lists parses to the
empty list (empty string or absent column), `TreeParser.__init__` silently
substitutes the built-in default list for that category; in particular a
file with extension `mkv` is typed video even under an empty configured
video list — empty configuration does not mean everything is `other`. -/
theorem C9_default_extension_fallback (raw : RawSettings) :
    (parseExtList raw.video_file_types = [] →
      (treeParserInit (some raw)).video_extensions = defaultVideoExts) ∧
    (parseExtList raw.audio_file_types = [] →
      (treeParserInit (some raw)).audio_extensions = defaultAudioExts) ∧
    (parseExtList raw.image_file_types = [] →
      (treeParserInit (some raw)).image_extensions = defaultImageExts) ∧
    (parseExtList raw.subtitle_file_types = [] →
      (treeParserInit (some raw)).subtitle_extensions = defaultSubtitleExts) ∧
    (parseExtList raw.metadata_file_types = [] →
      (treeParserInit (some raw)).metadata_extensions = defaultMetadataExts) ∧
    (parseExtList raw.video_file_types = [] →
      (getFileTypeOf (treeParserInit (some raw)) "a.mkv").1 = FileType.video) := by
  refine ⟨?_, ?_, ?_, ?_, ?_, ?_⟩ <;> intro h
  · simp [treeParserInit, h]
  · simp [treeParserInit, h]
  · simp [treeParserInit, h]
  · simp [treeParserInit, h]
  · simp [treeParserInit, h]
  · have hv : (treeParserInit (some raw)).video_extensions = defaultVideoExts := by
      simp [treeParserInit, h]
    have hc : defaultVideoExts.contains
        (String.mk (dropLeading (fun c => c == '.')
          (pyLower (osSplitext "a.mkv").2).data)) = true := by decide
    unfold getFileTypeOf
    rw [hv]
    simp only [hc, if_true]

/-- C9 (witness). -/
theorem C9_default_extension_fallback_witness :
    parseExtList rawAllEmpty.video_file_types = [] ∧
    (treeParserInit (some rawAllEmpty)).video_extensions = defaultVideoExts ∧
    (getFileTypeOf (treeParserInit (some rawAllEmpty)) "a.mkv").1 = FileType.video :=
  ⟨by decide,
   (C9_default_extension_fallback rawAllEmpty).1 (by decide),
   (C9_default_extension_fallback rawAllEmpty).2.2.2.2.2 (by decide)⟩

/-- C10: when the Task exists and the caller owns it, deletion removes the
`DownloadTask` rows, the `StrmFile` rows and the Task row from the store
regardless of whether removing the output directory raises: the resulting
store is identical for a failing and for a succeeding `rmtree`, and the
call returns a success value in both cases. -/
theorem C10_delete_always_deletes_records (db : Db) (task_id user_id : Nat)
    (dir_exists : Bool) (t : StrmTaskRow)
    (hfind : db.tasks.find? (fun t2 => t2.id == task_id) = some t)
    (hown : t.created_by_id = user_id) :
    (deleteTask db task_id user_id dir_exists true).1 =
      (deleteTask db task_id user_id dir_exists false).1 ∧
    ∀ rmtree_raises : Bool,
      (deleteTask db task_id user_id dir_exists rmtree_raises).1.downloads.filter
        (fun dl => dl.task_id == task_id) = [] ∧
      (deleteTask db task_id user_id dir_exists rmtree_raises).1.strm_files.filter
        (fun f => f.task_id == task_id) = [] ∧
      (deleteTask db task_id user_id dir_exists rmtree_raises).1.tasks.find?
        (fun t2 => t2.id == task_id) = none ∧
      (deleteTask db task_id user_id dir_exists rmtree_raises).2 =
        Except.ok (dir_exists && !rmtree_raises) := by
  have hrun : ∀ rmtree_raises : Bool,
      deleteTask db task_id user_id dir_exists rmtree_raises =
        ({ tasks := db.tasks.filter (fun t2 => ¬ t2.id = task_id),
           downloads := db.downloads.filter (fun dl => ¬ dl.task_id = task_id),
           strm_files := db.strm_files.filter (fun f => ¬ f.task_id = task_id) },
         Except.ok (dir_exists && !rmtree_raises)) := by
    intro b
    unfold deleteTask
    rw [hfind]
    dsimp only
    rw [if_neg (not_not_intro hown)]
  refine ⟨by rw [hrun true, hrun false], ?_⟩
  intro b
  rw [hrun b]
  refine ⟨?_, ?_, ?_, rfl⟩
  · apply List.filter_eq_nil_iff.mpr
    intro dl hdl
    rw [List.mem_filter] at hdl
    simp only [decide_eq_true_eq] at hdl
    simp [hdl.2]
  · apply List.filter_eq_nil_iff.mpr
    intro f hf
    rw [List.mem_filter] at hf
    simp only [decide_eq_true_eq] at hf
    simp [hf.2]
  · apply List.find?_eq_none.mpr
    intro t2 ht2
    rw [List.mem_filter] at ht2
    simp only [decide_eq_true_eq] at ht2
    simp [ht2.2]

/-- C10 (witness). -/
theorem C10_delete_always_deletes_records_witness :
    dbOne.tasks.find? (fun t2 => t2.id == 9) = some taskNine ∧
    (deleteTask dbOne 9 5 true true).1 = (deleteTask dbOne 9 5 true false).1 ∧
    (deleteTask dbOne 9 5 true true).1.downloads.filter (fun dl => dl.task_id == 9) = [] :=
  ⟨by decide,
   (C10_delete_always_deletes_records dbOne 9 5 true taskNine (by decide) (by decide)).1,
   ((C10_delete_always_deletes_records dbOne 9 5 true taskNine (by decide) (by decide)).2
     true).1⟩

end StreamForge
